import Mathlib

/-!
# GP1 Rasterizer (DirectX): frame orchestration, device set-up and effect loading

A shallow embedding of `source/Renderer.cpp`, `source/Renderer.h` and
`source/Effect.h`.

* Every call that leaves the embedded class (into the device context, the swap
  chain, the camera or a mesh) is recorded as a `Call` in a trace, in program
  order; member functions become functions from a state to a new state and
  the trace they produce.
* `float` is a type parameter `F` with the operations the source applies to it,
  `Matrix` is a type parameter `M` with its product, the camera is a type
  parameter `Cam`, an effect object is a type parameter `E` and the timer is a
  type parameter `T`.  Their member functions live in headers that are not part
  of the embedded files and are collected in `Collaborators`.
* Reading a value through a `const` accessor (`GetWorldMatrix`,
  `GetViewMatrix`, `GetProjectionMatrix`, `GetInvViewMatrix`, `GetOrigin`,
  `GetElapsed`) is a read of the state and leaves no entry in the trace.
* COM interface pointers are `Handle`s, `0` being `nullptr`; a member call
  through a null pointer ends the run with a `Fault`.
-/

namespace GP1

/-! ## Platform vocabulary -/

/-- A raw interface pointer; `0` is `nullptr`. -/
abbrev Handle := Nat

/-- Windows result code, a signed 32 bit integer. -/
abbrev HRESULT := Int

/-- The success code `S_OK`. -/
def S_OK : HRESULT := 0

/-- The generic failure code `E_FAIL` (`0x80004005` read as a signed 32 bit value). -/
def E_FAIL : HRESULT := -2147467259

/-- The `FAILED` test of the platform headers: the sign bit is set. -/
def FAILED (hr : HRESULT) : Bool := decide (hr < 0)

/-- Flag `D3D11_CLEAR_DEPTH`. -/
def D3D11_CLEAR_DEPTH : Nat := 1

/-- Flag `D3D11_CLEAR_STENCIL`. -/
def D3D11_CLEAR_STENCIL : Nat := 2

/-- What went wrong when a run cannot continue: a member function was called
through a null pointer. -/
inductive Fault
  | nullPointerCall
deriving DecidableEq, Repr

namespace dae

/-- Colour triple as used for the clear colour. -/
structure ColorRGB (F : Type) where
  r : F
  g : F
  b : F
deriving DecidableEq, Repr

/-- Three component vector. -/
structure Vector3 (F : Type) where
  x : F
  y : F
  z : F
deriving DecidableEq, Repr

/-- Component-wise sum, `Vector3::operator+`. -/
def Vector3.add {F : Type} [Add F] (a b : Vector3 F) : Vector3 F :=
  ⟨a.x + b.x, a.y + b.y, a.z + b.z⟩

/-- The two meshes the renderer owns: `m_pVehicleMesh` (opaque) and
`m_pFireMesh` (translucent). -/
inductive MeshId
  | vehicle
  | fire
deriving DecidableEq, Repr

/-- The device resources held by the renderer, plus the local DXGI factory of
`InitializeDirectX`. -/
inductive Resource
  | device
  | deviceContext
  | dxgiFactory
  | swapChain
  | depthStencilBuffer
  | depthStencilView
  | renderTargetBuffer
  | renderTargetView
deriving DecidableEq, Repr

/-- Heap objects the renderer owns through plain pointers. -/
inductive Owned
  | vehicleMesh
  | fireMesh
  | camera
  | texture
  | normalTexture
  | glossinessTexture
  | specularTexture
  | fireTexture
deriving DecidableEq, Repr

/-- The rasterizer viewport set at the end of `InitializeDirectX`. -/
structure Viewport (F : Type) where
  Width : F
  Height : F
  TopLeftX : F
  TopLeftY : F
  MinDepth : F
  MaxDepth : F
deriving DecidableEq, Repr

/-- One call leaving the renderer, with the arguments the source passes. -/
inductive Call (F M T : Type)
  /- Update -/
  | cameraUpdate (pTimer : T)
  | rotateMesh (mesh : MeshId) (angle : F)
  /- Render -/
  | calculateViewMatrix
  | clearRenderTargetView (ctx rtv : Handle) (color : ColorRGB F)
  | clearDepthStencilView (ctx dsv : Handle) (clearFlags : Nat) (depth : F) (stencil : Nat)
  | meshRender (mesh : MeshId) (ctx : Handle) (worldViewProjection : M) (invView : M)
  | present (swapChain : Handle) (syncInterval : Nat) (flags : Nat)
  /- SwitchTechnique -/
  | switchCurrentTechnique (mesh : MeshId)
  /- InitializeDirectX -/
  | d3d11CreateDevice
  | createDXGIFactory1
  | createSwapChain (factory device : Handle) (width height : Int) (window : Handle)
  | createTexture2D (device : Handle) (width height : Int)
  | createDepthStencilView (device buffer : Handle)
  | getBuffer (swapChain : Handle)
  | createRenderTargetView (device buffer : Handle)
  | omSetRenderTargets (ctx rtv dsv : Handle)
  | rsSetViewports (ctx : Handle) (viewPort : Viewport F)
  /- constructor -/
  | cout (text : String)
  /- destructor and clean-up -/
  | clearState (ctx : Handle)
  | flush (ctx : Handle)
  | release (r : Resource) (h : Handle)
  | delete (o : Owned)
deriving DecidableEq

/-! ## Collaborators -/

/-- Member functions of the classes whose headers are not among the embedded
files (`Camera`, `Matrix`, `Timer`, the effect classes, `Texture`), and the
constant `TO_RADIANS`. -/
structure Collaborators (F M Cam E T : Type) where
  /-- Constant `TO_RADIANS` of the maths header. -/
  TO_RADIANS : F
  /-- Method `Timer::GetElapsed`. -/
  GetElapsed : T → F
  /-- Constructor `Camera(origin, aspectRatio, fovAngle)`. -/
  NewCamera : Vector3 F → F → F → Cam
  /-- Method `Camera::Update(pTimer)`. -/
  CameraUpdate : T → Cam → Cam
  /-- Method `Camera::CalculateViewMatrix`. -/
  CalculateViewMatrix : Cam → Cam
  /-- Method `Camera::CalculateProjectionMatrix`. -/
  CalculateProjectionMatrix : Cam → Cam
  /-- Method `Camera::GetViewMatrix`. -/
  GetViewMatrix : Cam → M
  /-- Method `Camera::GetInvViewMatrix`. -/
  GetInvViewMatrix : Cam → M
  /-- Method `Camera::GetProjectionMatrix`. -/
  GetProjectionMatrix : Cam → M
  /-- Method `Camera::GetOrigin`. -/
  GetOrigin : Cam → Vector3 F
  /-- Function `Matrix::CreateScale`. -/
  CreateScale : Vector3 F → M
  /-- Function `Matrix::CreateRotation`. -/
  CreateRotation : Vector3 F → M
  /-- Function `Matrix::CreateTranslation`. -/
  CreateTranslation : Vector3 F → M
  /-- What `Mesh::RotateMesh(angle)` makes of the stored world matrix. -/
  RotateWorld : F → M → M
  /-- Constructor `MeshShaderEffect(pDevice, assetFile)`. -/
  NewMeshShaderEffect : Handle → String → E
  /-- Constructor `TransparancyEffect(pDevice, assetFile)`. -/
  NewTransparancyEffect : Handle → String → E
  /-- Method `SetDiffuseMap(pTexture)` of both effect classes. -/
  SetDiffuseMap : Handle → E → E
  /-- Method `MeshShaderEffect::SetNormalMap`. -/
  SetNormalMap : Handle → E → E
  /-- Method `MeshShaderEffect::SetGlossinessMap`. -/
  SetGlossinessMap : Handle → E → E
  /-- Method `MeshShaderEffect::SetSpecularMap`. -/
  SetSpecularMap : Handle → E → E
  /-- Method `SwitchCurrentTechnique` of the effect classes. -/
  SwitchCurrentTechnique : E → E
  /-- Function `Texture::LoadFromFile(path, pDevice)`; `0` when loading failed. -/
  LoadFromFile : String → Handle → Handle
  /-- World matrix a `Mesh` holds right after its constructor. -/
  NewMeshWorld : M

/-! ## Mesh -/

/-- The part of a `Mesh` the renderer reads and writes: its world matrix and
the effect it owns.  Vertex and index buffers never change after creation and
are left out. -/
structure Mesh (M E : Type) where
  m_WorldMatrix : M
  m_pEffect : E

/-- Modelled from the spec: `Mesh::GetWorldMatrix` (Mesh.h is missing), the
stored world transform. -/
def Mesh.GetWorldMatrix {M E : Type} (m : Mesh M E) : M := m.m_WorldMatrix

/-- Modelled from the spec: `Mesh::SetWorldMatrix` (Mesh.h is missing),
overwrites the stored world transform. -/
def Mesh.SetWorldMatrix {M E : Type} (m : Mesh M E) (w : M) : Mesh M E :=
  { m with m_WorldMatrix := w }

/-- Modelled from the spec: `Mesh::RotateMesh` (Mesh.h is missing), composes a
rotation about the up axis into the current world transform; the composition
itself is the collaborator `RotateWorld`. -/
def Mesh.RotateMesh {F M Cam E T : Type} (X : Collaborators F M Cam E T)
    (angle : F) (m : Mesh M E) : Mesh M E :=
  { m with m_WorldMatrix := X.RotateWorld angle m.m_WorldMatrix }

/-- Modelled from the spec: `Mesh::GetEffect` followed by
`SwitchCurrentTechnique` (Mesh.h and the effect headers are missing); only the
technique selection of the owned effect changes. -/
def Mesh.SwitchCurrentTechnique {F M Cam E T : Type} (X : Collaborators F M Cam E T)
    (m : Mesh M E) : Mesh M E :=
  { m with m_pEffect := X.SwitchCurrentTechnique m.m_pEffect }

/-! ## Renderer state -/

/-- The seven raw device pointers of `Renderer`. -/
structure DeviceHandles where
  m_pDevice : Handle
  m_pDeviceContext : Handle
  m_pSwapChain : Handle
  m_pDepthStencilBuffer : Handle
  m_pDepthStencilView : Handle
  m_pRenderTargetBuffer : Handle
  m_pRenderTargetView : Handle
deriving DecidableEq, Repr

/-- The five texture pointers of `Renderer`; `0` when the file did not load. -/
structure Textures where
  m_pTexture : Handle
  m_pNormalTexture : Handle
  m_pGlossinessTexture : Handle
  m_pSpecularTexture : Handle
  m_pFireTexture : Handle
deriving DecidableEq, Repr

/-- Data members of `Renderer` (Renderer.h). -/
structure Renderer (F M Cam E : Type) extends DeviceHandles, Textures where
  m_pWindow : Handle
  m_Width : Int
  m_Height : Int
  m_AspectRatio : F
  m_IsInitialized : Bool
  m_pVehicleMesh : Mesh M E
  m_pFireMesh : Mesh M E
  m_pCamera : Cam

section Frame

variable {F M Cam E T : Type} [Mul F] [OfScientific F] [Mul M]

/-- `Renderer::Update` (Renderer.cpp 78-85). -/
def Renderer.Update (X : Collaborators F M Cam E T) (pTimer : T)
    (s : Renderer F M Cam E) : Renderer F M Cam E × List (Call F M T) :=
  let meshRotation : F := 45.0 * X.GetElapsed pTimer * X.TO_RADIANS
  ({ s with
      m_pCamera := X.CameraUpdate pTimer s.m_pCamera
      m_pVehicleMesh := s.m_pVehicleMesh.RotateMesh X meshRotation
      m_pFireMesh := s.m_pFireMesh.RotateMesh X meshRotation },
   [ Call.cameraUpdate pTimer,
     Call.rotateMesh MeshId.vehicle meshRotation,
     Call.rotateMesh MeshId.fire meshRotation ])

/-- `Renderer::Render` (Renderer.cpp 88-111).  `Mesh::Render` is modelled from
the spec (Mesh.h is missing): it binds, selects the technique and draws, and
leaves the mesh itself as it was. -/
def Renderer.Render (X : Collaborators F M Cam E T)
    (s : Renderer F M Cam E) : Renderer F M Cam E × List (Call F M T) :=
  if !s.m_IsInitialized then
    (s, [])
  else
    let cam := X.CalculateViewMatrix s.m_pCamera
    let clearColor : ColorRGB F := ⟨0.0, 0.0, 0.3⟩
    let worldViewProjectionMatix : M :=
      s.m_pVehicleMesh.GetWorldMatrix * X.GetViewMatrix cam * X.GetProjectionMatrix cam
    ({ s with m_pCamera := cam },
     [ Call.calculateViewMatrix,
       Call.clearRenderTargetView s.m_pDeviceContext s.m_pRenderTargetView clearColor,
       Call.clearDepthStencilView s.m_pDeviceContext s.m_pDepthStencilView
         (D3D11_CLEAR_DEPTH ||| D3D11_CLEAR_STENCIL) 1.0 0,
       Call.meshRender MeshId.vehicle s.m_pDeviceContext worldViewProjectionMatix
         (X.GetInvViewMatrix cam),
       Call.meshRender MeshId.fire s.m_pDeviceContext worldViewProjectionMatix
         (X.GetInvViewMatrix cam),
       Call.present s.m_pSwapChain 0 0 ])

/-- `Renderer::SwitchTechnique` (Renderer.cpp 174-178). -/
def Renderer.SwitchTechnique (X : Collaborators F M Cam E T)
    (s : Renderer F M Cam E) : Renderer F M Cam E × List (Call F M T) :=
  ({ s with
      m_pVehicleMesh := s.m_pVehicleMesh.SwitchCurrentTechnique X
      m_pFireMesh := s.m_pFireMesh.SwitchCurrentTechnique X },
   [ Call.switchCurrentTechnique MeshId.vehicle,
     Call.switchCurrentTechnique MeshId.fire ])

end Frame

/-! ## Device set-up -/

/-- Result of one creation call of the platform: the code it returns and the
pointer it stores through its out-parameter. -/
structure Created where
  hr : HRESULT
  ptr : Handle
deriving DecidableEq, Repr

/-- What the platform answers to the seven creation calls of
`InitializeDirectX` in one run. -/
structure DeviceApi where
  /-- Call `D3D11CreateDevice`: result and device pointer. -/
  createDevice : Created
  /-- Call `D3D11CreateDevice`: the immediate context pointer. -/
  createDeviceContext : Handle
  /-- Call `CreateDXGIFactory1`. -/
  createFactory : Created
  /-- Call `IDXGIFactory::CreateSwapChain`. -/
  createSwapChain : Created
  /-- Call `ID3D11Device::CreateTexture2D` for the depth-stencil buffer. -/
  createTexture2D : Created
  /-- Call `ID3D11Device::CreateDepthStencilView`. -/
  createDepthStencilView : Created
  /-- Call `IDXGISwapChain::GetBuffer` for the back buffer. -/
  getBuffer : Created
  /-- Call `ID3D11Device::CreateRenderTargetView`. -/
  createRenderTargetView : Created
deriving DecidableEq, Repr

/-- The window as the windowing library reports it: the native handle and the
client size (`SDL_GetWindowSize`, `SDL_GetWindowWMInfo`). -/
structure Window where
  handle : Handle
  width : Int
  height : Int
deriving DecidableEq, Repr

/-- The seven creation steps of `InitializeDirectX`, in source order. -/
inductive InitStep
  | createDevice
  | createFactory
  | createSwapChain
  | createTexture2D
  | createDepthStencilView
  | getBuffer
  | createRenderTargetView
deriving DecidableEq, Repr

/-- Position of a step in the source. -/
def InitStep.index : InitStep → Nat
  | InitStep.createDevice => 0
  | InitStep.createFactory => 1
  | InitStep.createSwapChain => 2
  | InitStep.createTexture2D => 3
  | InitStep.createDepthStencilView => 4
  | InitStep.getBuffer => 5
  | InitStep.createRenderTargetView => 6

/-- All steps, in source order. -/
def InitStep.all : List InitStep :=
  [ InitStep.createDevice, InitStep.createFactory, InitStep.createSwapChain,
    InitStep.createTexture2D, InitStep.createDepthStencilView, InitStep.getBuffer,
    InitStep.createRenderTargetView ]

/-- The result code the platform returns for a step. -/
def DeviceApi.hrOf (api : DeviceApi) : InitStep → HRESULT
  | InitStep.createDevice => api.createDevice.hr
  | InitStep.createFactory => api.createFactory.hr
  | InitStep.createSwapChain => api.createSwapChain.hr
  | InitStep.createTexture2D => api.createTexture2D.hr
  | InitStep.createDepthStencilView => api.createDepthStencilView.hr
  | InitStep.getBuffer => api.getBuffer.hr
  | InitStep.createRenderTargetView => api.createRenderTargetView.hr

/-- Every creation step returned a code that is not a failure. -/
def DeviceApi.allSucceeded (api : DeviceApi) : Bool :=
  InitStep.all.all (fun k => !FAILED (api.hrOf k))

/-- The pointers stored for the seven members are all non-null, as the
platform guarantees for calls that succeed. -/
def DeviceApi.pointersNonNull (api : DeviceApi) : Bool :=
  decide (api.createDevice.ptr ≠ 0) && decide (api.createDeviceContext ≠ 0)
    && decide (api.createSwapChain.ptr ≠ 0) && decide (api.createTexture2D.ptr ≠ 0)
    && decide (api.createDepthStencilView.ptr ≠ 0) && decide (api.getBuffer.ptr ≠ 0)
    && decide (api.createRenderTargetView.ptr ≠ 0)

section Setup

variable {F M Cam E T : Type}

/-- `Renderer::InitializeDirectX` (Renderer.cpp 181-285), on the window data
and the seven device pointers.  Each `if (FAILED(result)) return result;` of
the source is one early exit here; descriptor structs are reduced to the
members that come from the renderer. -/
def InitializeDirectX [IntCast F] [OfScientific F] (api : DeviceApi)
    (m_pWindow : Handle) (m_Width m_Height : Int) (d : DeviceHandles) :
    HRESULT × DeviceHandles × List (Call F M T) :=
  -- 1. Create Device & DeviceContext
  let result := api.createDevice.hr
  let d := { d with m_pDevice := api.createDevice.ptr
                    m_pDeviceContext := api.createDeviceContext }
  let t : List (Call F M T) := [Call.d3d11CreateDevice]
  if FAILED result then (result, d, t) else
  -- Create DXGI Factory
  let result := api.createFactory.hr
  let pDxgiFactory := api.createFactory.ptr
  let t := t ++ [Call.createDXGIFactory1]
  if FAILED result then (result, d, t) else
  -- 2. Create Swapchain
  let result := api.createSwapChain.hr
  let t := t ++ [Call.createSwapChain pDxgiFactory d.m_pDevice m_Width m_Height m_pWindow]
  let d := { d with m_pSwapChain := api.createSwapChain.ptr }
  if FAILED result then (result, d, t) else
  -- 3. Create DepthStencil (DS) & DepthStencilView (DSV)
  let result := api.createTexture2D.hr
  let t := t ++ [Call.createTexture2D d.m_pDevice m_Width m_Height]
  let d := { d with m_pDepthStencilBuffer := api.createTexture2D.ptr }
  if FAILED result then (result, d, t) else
  let result := api.createDepthStencilView.hr
  let t := t ++ [Call.createDepthStencilView d.m_pDevice d.m_pDepthStencilBuffer]
  let d := { d with m_pDepthStencilView := api.createDepthStencilView.ptr }
  if FAILED result then (result, d, t) else
  -- 4. Create renderTarget (RT) & RenderTargetView (RTV)
  let result := api.getBuffer.hr
  let t := t ++ [Call.getBuffer d.m_pSwapChain]
  let d := { d with m_pRenderTargetBuffer := api.getBuffer.ptr }
  if FAILED result then (result, d, t) else
  let _result := api.createRenderTargetView.hr
  let t := t ++ [Call.createRenderTargetView d.m_pDevice d.m_pRenderTargetBuffer]
  let d := { d with m_pRenderTargetView := api.createRenderTargetView.ptr }
  -- 5. Bind RTV & DSV to output Merger Stage
  let t := t ++ [Call.omSetRenderTargets d.m_pDeviceContext d.m_pRenderTargetView
                   d.m_pDepthStencilView]
  -- 6. Set viewport
  let viewPort : Viewport F :=
    { Width := (m_Width : F), Height := (m_Height : F), TopLeftX := 0.0, TopLeftY := 0.0,
      MinDepth := 0.0, MaxDepth := 1.0 }
  let t := t ++ [Call.rsSetViewports d.m_pDeviceContext viewPort]
  let t := t ++ [Call.release Resource.dxgiFactory pDxgiFactory]
  (S_OK, d, t)

/-- `Renderer::InitCamera` (Renderer.cpp 159-163). -/
def InitCamera [Neg F] [OfScientific F] (X : Collaborators F M Cam E T)
    (m_AspectRatio : F) : Cam :=
  X.CalculateProjectionMatrix (X.NewCamera ⟨0.0, 0.0, -10.0⟩ m_AspectRatio 45.0)

/-- `Renderer::InitTexture` (Renderer.cpp 165-172). -/
def InitTexture (X : Collaborators F M Cam E T) (m_pDevice : Handle) : Textures :=
  { m_pTexture := X.LoadFromFile "Resources/vehicle_diffuse.png" m_pDevice
    m_pNormalTexture := X.LoadFromFile "Resources/vehicle_normal.png" m_pDevice
    m_pGlossinessTexture := X.LoadFromFile "Resources/vehicle_gloss.png" m_pDevice
    m_pSpecularTexture := X.LoadFromFile "Resources/vehicle_specular.png" m_pDevice
    m_pFireTexture := X.LoadFromFile "Resources/fireFX_diffuse.png" m_pDevice }

/-- `Renderer::InitMesh` (Renderer.cpp 113-157): the vehicle mesh and the fire
mesh.  `Vector3{}` is the zero vector; geometry parsing is left out. -/
def InitMesh [Add F] [OfScientific F] [Mul M] (X : Collaborators F M Cam E T)
    (m_pDevice : Handle) (tx : Textures) (m_pCamera : Cam) : Mesh M E × Mesh M E :=
  -- Set up mesh data for vehicle
  let shaderEffect := X.NewMeshShaderEffect m_pDevice "Resources/MeshShader.fx"
  let shaderEffect :=
    if tx.m_pTexture ≠ 0 then X.SetDiffuseMap tx.m_pTexture shaderEffect else shaderEffect
  let shaderEffect :=
    if tx.m_pNormalTexture ≠ 0 then X.SetNormalMap tx.m_pNormalTexture shaderEffect
    else shaderEffect
  let shaderEffect :=
    if tx.m_pGlossinessTexture ≠ 0 then X.SetGlossinessMap tx.m_pGlossinessTexture shaderEffect
    else shaderEffect
  let shaderEffect :=
    if tx.m_pSpecularTexture ≠ 0 then X.SetSpecularMap tx.m_pSpecularTexture shaderEffect
    else shaderEffect
  let m_pVehicleMesh : Mesh M E := ⟨X.NewMeshWorld, shaderEffect⟩
  let position : Vector3 F := (X.GetOrigin m_pCamera).add ⟨0.0, 0.0, 50.0⟩
  let rotation : Vector3 F := ⟨0.0, 0.0, 0.0⟩
  let scale : Vector3 F := ⟨1.0, 1.0, 1.0⟩
  let worldMatrix : M :=
    X.CreateScale scale * X.CreateRotation rotation * X.CreateTranslation position
  let m_pVehicleMesh := m_pVehicleMesh.SetWorldMatrix worldMatrix
  -- Set up mesh data for Fire
  let transparancyEffect := X.NewTransparancyEffect m_pDevice "Resources/Transparancy.fx"
  let m_pFireMesh : Mesh M E := ⟨X.NewMeshWorld, transparancyEffect⟩
  let m_pFireMesh :=
    if tx.m_pFireTexture ≠ 0 then
      { m_pFireMesh with m_pEffect := X.SetDiffuseMap tx.m_pFireTexture m_pFireMesh.m_pEffect }
    else m_pFireMesh
  let m_pFireMesh := m_pFireMesh.SetWorldMatrix worldMatrix
  (m_pVehicleMesh, m_pFireMesh)

/-- `Renderer::Renderer` (Renderer.cpp 6-30).  `uninit` is whatever the seven
device pointers hold before `InitializeDirectX` writes them (they have no
initialiser); `m_IsInitialized` starts `false`. -/
def Renderer.ctor [Add F] [Neg F] [Div F] [IntCast F] [OfScientific F] [Mul M]
    (X : Collaborators F M Cam E T) (api : DeviceApi) (pWindow : Window)
    (uninit : DeviceHandles) : Renderer F M Cam E × List (Call F M T) :=
  let m_Width := pWindow.width
  let m_Height := pWindow.height
  let m_AspectRatio : F := (m_Width : F) / (m_Height : F)
  let init : HRESULT × DeviceHandles × List (Call F M T) :=
    InitializeDirectX api pWindow.handle m_Width m_Height uninit
  let result := init.1
  let d := init.2.1
  let m_IsInitialized := if result = S_OK then true else false
  let msg : Call F M T :=
    if result = S_OK then Call.cout "DirectX is initialized and ready!\n"
    else Call.cout "DirectX initialization failed!\n"
  let m_pCamera := InitCamera X m_AspectRatio
  let tx := InitTexture X d.m_pDevice
  let meshes := InitMesh X d.m_pDevice tx m_pCamera
  ({ toDeviceHandles := d, toTextures := tx, m_pWindow := pWindow.handle,
     m_Width := m_Width, m_Height := m_Height, m_AspectRatio := m_AspectRatio,
     m_IsInitialized := m_IsInitialized, m_pVehicleMesh := meshes.1,
     m_pFireMesh := meshes.2, m_pCamera := m_pCamera },
   init.2.2 ++ [msg])

/-! ## Tear-down -/

/-- A `delete p;` statement: nothing happens for a null pointer. -/
def deleteOwned (o : Owned) (p : Handle) : List (Call F M T) :=
  if p = 0 then [] else [Call.delete o]

/-- A run of unguarded `p->Release();` statements, in order; the first null
pointer stops the run with a fault. -/
def releaseEach : List (Resource × Handle) → List (Call F M T) × Option Fault
  | [] => ([], none)
  | (r, h) :: rest =>
    if h = 0 then ([], some Fault.nullPointerCall)
    else ((Call.release r h : Call F M T) :: (releaseEach rest).1, (releaseEach rest).2)

/-- The `delete` statements of the destructor (Renderer.cpp 41-66): meshes and
camera always exist, a texture pointer may be null. -/
def Renderer.deleteOwnedObjects (s : Renderer F M Cam E) : List (Call F M T) :=
  [Call.delete Owned.vehicleMesh, Call.delete Owned.fireMesh, Call.delete Owned.camera]
    ++ deleteOwned Owned.texture s.m_pTexture
    ++ deleteOwned Owned.normalTexture s.m_pNormalTexture
    ++ deleteOwned Owned.glossinessTexture s.m_pGlossinessTexture
    ++ deleteOwned Owned.specularTexture s.m_pSpecularTexture
    ++ deleteOwned Owned.fireTexture s.m_pFireTexture

/-- `Renderer::~Renderer` (Renderer.cpp 32-76): the calls it issues and the
fault it ends in, if any. -/
def Renderer.dtor (s : Renderer F M Cam E) : List (Call F M T) × Option Fault :=
  let t1 : List (Call F M T) :=
    if s.m_pDeviceContext ≠ 0 then
      [Call.clearState s.m_pDeviceContext, Call.flush s.m_pDeviceContext,
       Call.release Resource.deviceContext s.m_pDeviceContext]
    else []
  let t2 : List (Call F M T) := s.deleteOwnedObjects
  let rel : List (Call F M T) × Option Fault :=
    releaseEach
      [ (Resource.renderTargetView, s.m_pRenderTargetView),
        (Resource.renderTargetBuffer, s.m_pRenderTargetBuffer),
        (Resource.depthStencilView, s.m_pDepthStencilView),
        (Resource.depthStencilBuffer, s.m_pDepthStencilBuffer),
        (Resource.swapChain, s.m_pSwapChain),
        (Resource.device, s.m_pDevice) ]
  (t1 ++ t2 ++ rel.1, rel.2)

/-! ## Reading traces -/

/-- The creation step a call belongs to, if any. -/
def Call.step : Call F M T → Option InitStep
  | Call.d3d11CreateDevice => some InitStep.createDevice
  | Call.createDXGIFactory1 => some InitStep.createFactory
  | Call.createSwapChain _ _ _ _ _ => some InitStep.createSwapChain
  | Call.createTexture2D _ _ _ => some InitStep.createTexture2D
  | Call.createDepthStencilView _ _ => some InitStep.createDepthStencilView
  | Call.getBuffer _ => some InitStep.getBuffer
  | Call.createRenderTargetView _ _ => some InitStep.createRenderTargetView
  | _ => none

/-- The creation steps a trace executed, in order. -/
def stepsRun (t : List (Call F M T)) : List InitStep :=
  t.filterMap Call.step

/-- The resources a creation call brings into existence. -/
def Call.creates : Call F M T → List Resource
  | Call.d3d11CreateDevice => [Resource.device, Resource.deviceContext]
  | Call.createDXGIFactory1 => [Resource.dxgiFactory]
  | Call.createSwapChain _ _ _ _ _ => [Resource.swapChain]
  | Call.createTexture2D _ _ _ => [Resource.depthStencilBuffer]
  | Call.createDepthStencilView _ _ => [Resource.depthStencilView]
  | Call.getBuffer _ => [Resource.renderTargetBuffer]
  | Call.createRenderTargetView _ _ => [Resource.renderTargetView]
  | _ => []

/-- The resources of a trace in the order they were created. -/
def creationOrder (t : List (Call F M T)) : List Resource :=
  t.flatMap Call.creates

/-- The resource a call releases, if it is a `Release`. -/
def Call.releases : Call F M T → Option Resource
  | Call.release r _ => some r
  | _ => none

/-- The resources of a trace in the order they were released. -/
def releaseOrder (t : List (Call F M T)) : List Resource :=
  t.filterMap Call.releases

/-- The matrix a call hands to `Mesh::Render` of the given mesh as the
world-view-projection matrix. -/
def Call.wvpFor (mesh : MeshId) : Call F M T → Option M
  | Call.meshRender m _ wvp _ => if m = mesh then some wvp else none
  | _ => none

/-- Whether a call is a `Mesh::Render`. -/
def Call.isMeshRender : Call F M T → Bool
  | Call.meshRender _ _ _ _ => true
  | _ => false

/-- Whether a call is a swap-chain `Present`. -/
def Call.isPresent : Call F M T → Bool
  | Call.present _ _ _ => true
  | _ => false

/-- Whether a call belongs to the part of `InitializeDirectX` that binds the
output targets or sets the viewport. -/
def Call.isBindOrViewport : Call F M T → Bool
  | Call.omSetRenderTargets _ _ _ => true
  | Call.rsSetViewports _ _ => true
  | _ => false

end Setup

/-! ## Frame loop -/

/-- The member functions a host may call on a constructed renderer. -/
inductive Op (T : Type)
  | update (pTimer : T)
  | switchTechnique
  | render

section Loop

variable {F M Cam E T : Type} [Mul F] [OfScientific F] [Mul M]

/-- One host call: the new state and the calls issued. -/
def Renderer.step (X : Collaborators F M Cam E T) (s : Renderer F M Cam E) :
    Op T → Renderer F M Cam E × List (Call F M T)
  | Op.update pTimer => s.Update X pTimer
  | Op.switchTechnique => s.SwitchTechnique X
  | Op.render => s.Render X

/-- The state after a finite sequence of host calls. -/
def Renderer.run (X : Collaborators F M Cam E T) (s : Renderer F M Cam E) :
    List (Op T) → Renderer F M Cam E
  | [] => s
  | op :: ops => Renderer.run X (s.step X op).1 ops

end Loop

end dae

/-! ## Effect (Effect.h) -/

/-- An `ID3DX11EffectTechnique` as the constructor sees it. -/
structure EffectTechnique where
  IsValid : Bool
deriving DecidableEq, Repr

/-- An `ID3DX11EffectMatrixVariable` as the constructor sees it. -/
structure EffectMatrixVariable where
  IsValid : Bool
deriving DecidableEq, Repr

/-- An `ID3DX11EffectVariable`: what `AsMatrix` yields. -/
structure EffectVariable where
  AsMatrix : EffectMatrixVariable
deriving DecidableEq, Repr

/-- A compiled effect, `ID3DX11Effect`: look-up of techniques and variables by
name.  A name that does not resolve yields an object whose `IsValid` is false. -/
structure ID3DX11Effect where
  GetTechniqueByName : String → EffectTechnique
  GetVariableByName : String → EffectVariable

/-- What `D3DX11CompileEffectFromFile` leaves behind: its result code, the
pointer found in `pEffect` afterwards and the pointer found in `pErrorBlob`
afterwards (`none` is `nullptr`; the blob is its character buffer). -/
structure Compiled where
  result : HRESULT
  pEffect : Option ID3DX11Effect
  pErrorBlob : Option (List Char)

/-- Observable actions of the effect code. -/
inductive EffectCall
  | outputDebugStringW (text : String)
  | wcout (text : String)
  | errorBlobRelease
deriving DecidableEq, Repr

/-- A run of effect code: what it did, and what it returned or the fault that
ended it. -/
structure Run (α : Type) where
  log : List EffectCall
  outcome : Except Fault α

/-- Data members of `Effect`. -/
structure Effect where
  m_pEffect : ID3DX11Effect
  m_pTechnique : EffectTechnique
  m_pMatWorldViewProjVariable : EffectMatrixVariable

/-- The statement `pErrorBlob->Release();` for the current value of the local
pointer: a call through `nullptr` is a fault. -/
def releaseErrorBlob (pErrorBlob : Option (List Char)) : List EffectCall × Option Fault :=
  match pErrorBlob with
  | some _ => ([EffectCall.errorBlobRelease], none)
  | none => ([], some Fault.nullPointerCall)

/-- The loop `for (i < GetBufferSize()) ss << pErrors[i];`. -/
def blobText (blob : List Char) : String :=
  blob.foldl (fun ss ch => ss.push ch) ""

/-- `Effect::LoadEffect` (Effect.h 31-77), given what the compiler call left
behind for `assetFile`.  `std::endl` is the newline appended to a line written
to `wcout`. -/
def Effect.LoadEffect (c : Compiled) (assetFile : String) : Run (Option ID3DX11Effect) :=
  let pErrorBlob := c.pErrorBlob
  let pEffect := c.pEffect
  -- lines 75-76, reached with the log so far and the current `pErrorBlob`
  let tail (log : List EffectCall) (pErrorBlob : Option (List Char)) :
      Run (Option ID3DX11Effect) :=
    match releaseErrorBlob pErrorBlob with
    | (l, some fault) => ⟨log ++ l, Except.error fault⟩
    | (l, none) => ⟨log ++ l, Except.ok pEffect⟩
  if FAILED c.result then
    match pErrorBlob with
    | some blob =>
      let ss := blobText blob
      let log := [EffectCall.outputDebugStringW ss]
      let log := log ++ (releaseErrorBlob pErrorBlob).1
      let pErrorBlob : Option (List Char) := none
      let log := log ++ [EffectCall.wcout (ss ++ "\n")]
      tail log pErrorBlob
    | none =>
      let ss := "EffectLoader: Failed to CreateEffectFromFile! \nPath: " ++ assetFile
      ⟨[EffectCall.wcout (ss ++ "\n")], Except.ok none⟩
  else
    tail [] pErrorBlob

/-- `Effect::Effect` (Effect.h 8-19).  The calls on `m_pEffect` go through the
pointer `LoadEffect` returned, so a null pointer there is a fault. -/
def Effect.ctor (c : Compiled) (assetFile : String) : Run Effect :=
  let loaded := Effect.LoadEffect c assetFile
  match loaded.outcome with
  | Except.error fault => ⟨loaded.log, Except.error fault⟩
  | Except.ok none => ⟨loaded.log, Except.error Fault.nullPointerCall⟩
  | Except.ok (some m_pEffect) =>
    let m_pTechnique := m_pEffect.GetTechniqueByName "DefaultTechnique"
    let log1 :=
      if !m_pTechnique.IsValid then [EffectCall.wcout "Technique not valid \n"] else []
    let m_pMatWorldViewProjVariable := (m_pEffect.GetVariableByName "gWorldViewProj").AsMatrix
    let log2 :=
      if !m_pMatWorldViewProjVariable.IsValid then
        [EffectCall.wcout "m_pMatWorldViewProjVariable not valid \n"]
      else []
    ⟨loaded.log ++ log1 ++ log2,
     Except.ok ⟨m_pEffect, m_pTechnique, m_pMatWorldViewProjVariable⟩⟩

/-- Whether a run ended normally with a value. -/
def Run.completed {α : Type} (r : Run α) : Bool :=
  match r.outcome with
  | Except.ok _ => true
  | Except.error _ => false

/-- How often a run called `Release` on the diagnostic buffer. -/
def Run.blobReleases {α : Type} (r : Run α) : Nat :=
  r.log.count EffectCall.errorBlobRelease

/-! ## A concrete scene

Rational numbers stand in for `float`, rational 4×4 matrices for `Matrix`; the
camera keeps its matrices, an effect is the index of its current technique and
a timer is its elapsed time. -/

namespace Sample

/-- Rational 4×4 matrices. -/
abbrev Mat : Type := Matrix (Fin 4) (Fin 4) ℚ

/-- A camera that stores its origin and its three matrices. -/
structure Camera where
  origin : dae.Vector3 ℚ
  view : Mat
  invView : Mat
  proj : Mat

/-- Collaborators of the concrete scene. -/
def X : dae.Collaborators ℚ Mat Camera Nat ℚ where
  TO_RADIANS := 355 / (113 * 180)
  GetElapsed := fun dt => dt
  NewCamera := fun origin _ _ => ⟨origin, 1, 1, 1⟩
  CameraUpdate := fun _ c => c
  CalculateViewMatrix := fun c => c
  CalculateProjectionMatrix := fun c => c
  GetViewMatrix := fun c => c.view
  GetInvViewMatrix := fun c => c.invView
  GetProjectionMatrix := fun c => c.proj
  GetOrigin := fun c => c.origin
  CreateScale := fun v => Matrix.diagonal ![v.x, v.y, v.z, 1]
  CreateRotation := fun _ => 1
  CreateTranslation := fun v =>
    Matrix.of ![![1, 0, 0, 0], ![0, 1, 0, 0], ![0, 0, 1, 0], ![v.x, v.y, v.z, 1]]
  RotateWorld := fun a w =>
    Matrix.of ![![1, 0, -a, 0], ![0, 1, 0, 0], ![a, 0, 1, 0], ![0, 0, 0, 1]] * w
  NewMeshShaderEffect := fun _ _ => 0
  NewTransparancyEffect := fun _ _ => 0
  SetDiffuseMap := fun _ e => e
  SetNormalMap := fun _ e => e
  SetGlossinessMap := fun _ e => e
  SetSpecularMap := fun _ e => e
  SwitchCurrentTechnique := fun e => (e + 1) % 3
  LoadFromFile := fun path _ => path.length
  NewMeshWorld := 1

/-- Device pointers of a set-up that went through. -/
def handles : dae.DeviceHandles :=
  { m_pDevice := 1, m_pDeviceContext := 2, m_pSwapChain := 4, m_pDepthStencilBuffer := 5,
    m_pDepthStencilView := 6, m_pRenderTargetBuffer := 7, m_pRenderTargetView := 8 }

/-- Texture pointers, all loaded. -/
def textures : dae.Textures :=
  { m_pTexture := 11, m_pNormalTexture := 12, m_pGlossinessTexture := 13,
    m_pSpecularTexture := 14, m_pFireTexture := 15 }

/-- A renderer state with the given flag and the given world matrices of the
vehicle mesh and the fire mesh; view and projection are the identity. -/
def state (isInitialized : Bool) (vehicleWorld fireWorld : Mat) :
    dae.Renderer ℚ Mat Camera Nat :=
  { toDeviceHandles := handles, toTextures := textures, m_pWindow := 9,
    m_Width := 640, m_Height := 480, m_AspectRatio := 4 / 3,
    m_IsInitialized := isInitialized,
    m_pVehicleMesh := ⟨vehicleWorld, 0⟩, m_pFireMesh := ⟨fireWorld, 0⟩,
    m_pCamera := ⟨⟨0, 0, -10⟩, 1, 1, 1⟩ }

/-- A platform on which every creation call returns `S_OK` and a pointer. -/
def apiOk : dae.DeviceApi :=
  { createDevice := ⟨S_OK, 1⟩, createDeviceContext := 2, createFactory := ⟨S_OK, 3⟩,
    createSwapChain := ⟨S_OK, 4⟩, createTexture2D := ⟨S_OK, 5⟩,
    createDepthStencilView := ⟨S_OK, 6⟩, getBuffer := ⟨S_OK, 7⟩,
    createRenderTargetView := ⟨S_OK, 8⟩ }

/-- The same platform, except that `CreateRenderTargetView` fails with
`E_FAIL` and stores a null pointer. -/
def apiViewFails : dae.DeviceApi :=
  { apiOk with createRenderTargetView := ⟨E_FAIL, 0⟩ }

/-- A 640 by 480 window. -/
def window : dae.Window := ⟨9, 640, 480⟩

/-- Pointer members before the constructor body runs. -/
def uninit : dae.DeviceHandles := ⟨0, 0, 0, 0, 0, 0, 0⟩

/-- A compiled effect in which only the technique resolves. -/
def programWithoutMatrix : ID3DX11Effect :=
  { GetTechniqueByName := fun name => ⟨name == "DefaultTechnique"⟩
    GetVariableByName := fun _ => ⟨⟨false⟩⟩ }

/-- A compile that succeeded with a warning in the diagnostic buffer. -/
def compiledWithWarning : Compiled :=
  { result := S_OK, pEffect := some programWithoutMatrix, pErrorBlob := some ['w'] }

/-- A compile that failed with a diagnostic buffer holding "x". -/
def failedWithDiagnostic : Compiled :=
  { result := E_FAIL, pEffect := none, pErrorBlob := some ['x'] }

/-- A compile that succeeded and left the diagnostic pointer null. -/
def compiledSilently : Compiled :=
  { result := S_OK, pEffect := some programWithoutMatrix, pErrorBlob := none }

/-- A compile that failed without a diagnostic buffer. -/
def failedSilently : Compiled :=
  { result := E_FAIL, pEffect := none, pErrorBlob := none }

end Sample

/-! ## Properties of the frame functions -/

namespace dae

/-- C1: with `m_IsInitialized` false, `Render` returns at once: the trace of
calls is empty (no view recomputation, no clear, no mesh render, no present)
and the renderer state is the one it started from. -/
theorem Render_uninitialized_noop {F M Cam E T : Type} [OfScientific F] [Mul M]
    (X : Collaborators F M Cam E T) (s : Renderer F M Cam E)
    (h : s.m_IsInitialized = false) :
    s.Render X = (s, []) := by
  simp [Renderer.Render, h]

/-- Witness for C1 in the concrete scene. -/
theorem Render_uninitialized_noop_witness :
    (Sample.state false 1 1).m_IsInitialized = false ∧
      (Sample.state false 1 1).Render Sample.X = (Sample.state false 1 1, []) :=
  ⟨rfl, Render_uninitialized_noop Sample.X (Sample.state false 1 1) rfl⟩

/-- C2: with `m_IsInitialized` true, one `Render` issues exactly: view matrix
recomputation, clear of the render-target view to (0, 0, 0.3), clear of the
depth-stencil view (depth and stencil flags) to depth 1.0 and stencil 0,
render of the vehicle mesh, render of the fire mesh, `Present(0, 0)`.  So there
are two mesh renders, vehicle before fire, and one present, which is last. -/
theorem Render_initialized_calls {F M Cam E T : Type} [OfScientific F] [Mul M]
    (X : Collaborators F M Cam E T) (s : Renderer F M Cam E)
    (h : s.m_IsInitialized = true) :
    (s.Render X).2 =
      [ Call.calculateViewMatrix,
        Call.clearRenderTargetView s.m_pDeviceContext s.m_pRenderTargetView ⟨0.0, 0.0, 0.3⟩,
        Call.clearDepthStencilView s.m_pDeviceContext s.m_pDepthStencilView
          (D3D11_CLEAR_DEPTH ||| D3D11_CLEAR_STENCIL) 1.0 0,
        Call.meshRender MeshId.vehicle s.m_pDeviceContext
          (s.m_pVehicleMesh.GetWorldMatrix * X.GetViewMatrix (X.CalculateViewMatrix s.m_pCamera)
            * X.GetProjectionMatrix (X.CalculateViewMatrix s.m_pCamera))
          (X.GetInvViewMatrix (X.CalculateViewMatrix s.m_pCamera)),
        Call.meshRender MeshId.fire s.m_pDeviceContext
          (s.m_pVehicleMesh.GetWorldMatrix * X.GetViewMatrix (X.CalculateViewMatrix s.m_pCamera)
            * X.GetProjectionMatrix (X.CalculateViewMatrix s.m_pCamera))
          (X.GetInvViewMatrix (X.CalculateViewMatrix s.m_pCamera)),
        Call.present s.m_pSwapChain 0 0 ]
    ∧ (s.Render X).2.map Call.isMeshRender = [false, false, false, true, true, false]
    ∧ ((s.Render X).2.filter Call.isMeshRender).length = 2
    ∧ ((s.Render X).2.filter Call.isPresent).length = 1
    ∧ (s.Render X).2.getLast? = some (Call.present s.m_pSwapChain 0 0) := by
  simp [Renderer.Render, h, Call.isMeshRender, Call.isPresent]

/-- Witness for C2 in the concrete scene: two mesh renders, one present, and
the present is the last call. -/
theorem Render_initialized_calls_witness :
    (Sample.state true 1 1).m_IsInitialized = true ∧
      ((((Sample.state true 1 1).Render Sample.X).2.filter Call.isMeshRender).length = 2
        ∧ (((Sample.state true 1 1).Render Sample.X).2.filter Call.isPresent).length = 1
        ∧ ((Sample.state true 1 1).Render Sample.X).2.getLast? = some (Call.present 4 0 0)) :=
  ⟨rfl, (Render_initialized_calls Sample.X (Sample.state true 1 1) rfl).2.2⟩

/-- C8: `Update` calls the camera's update first, then `RotateMesh` once on
the vehicle mesh and once on the fire mesh, both with the angle
`45 * dt * TO_RADIANS`, and the new state holds the updated camera and the two
rotated world matrices; the flag `m_IsInitialized` plays no part. -/
theorem Update_camera_then_both_meshes {F M Cam E T : Type} [Mul F] [OfScientific F]
    (X : Collaborators F M Cam E T) (pTimer : T) (s : Renderer F M Cam E) :
    (s.Update X pTimer).2 =
      [ Call.cameraUpdate pTimer,
        Call.rotateMesh MeshId.vehicle (45.0 * X.GetElapsed pTimer * X.TO_RADIANS),
        Call.rotateMesh MeshId.fire (45.0 * X.GetElapsed pTimer * X.TO_RADIANS) ]
    ∧ (s.Update X pTimer).1.m_pCamera = X.CameraUpdate pTimer s.m_pCamera
    ∧ (s.Update X pTimer).1.m_pVehicleMesh.m_WorldMatrix =
        X.RotateWorld (45.0 * X.GetElapsed pTimer * X.TO_RADIANS) s.m_pVehicleMesh.m_WorldMatrix
    ∧ (s.Update X pTimer).1.m_pFireMesh.m_WorldMatrix =
        X.RotateWorld (45.0 * X.GetElapsed pTimer * X.TO_RADIANS) s.m_pFireMesh.m_WorldMatrix
    ∧ (s.Update X pTimer).1.m_IsInitialized = s.m_IsInitialized := by
  simp [Renderer.Update, Mesh.RotateMesh]

/-! ## The frame loop keeps pointers and keeps the two world matrices equal -/

/-- No host call touches the device pointers, the texture pointers or the
flag. -/
theorem step_keeps_members {F M Cam E T : Type} [Mul F] [OfScientific F] [Mul M]
    (X : Collaborators F M Cam E T) (s : Renderer F M Cam E) (op : Op T) :
    (s.step X op).1.toDeviceHandles = s.toDeviceHandles
    ∧ (s.step X op).1.toTextures = s.toTextures
    ∧ (s.step X op).1.m_IsInitialized = s.m_IsInitialized := by
  cases op with
  | update pTimer => simp [Renderer.step, Renderer.Update]
  | switchTechnique => simp [Renderer.step, Renderer.SwitchTechnique]
  | render =>
    by_cases h : s.m_IsInitialized = true
    · simp [Renderer.step, Renderer.Render, h]
    · simp [Renderer.step, Renderer.Render, h]

/-- A sequence of host calls leaves the device pointers, the texture pointers
and the flag as they were. -/
theorem run_keeps_members {F M Cam E T : Type} [Mul F] [OfScientific F] [Mul M]
    (X : Collaborators F M Cam E T) (ops : List (Op T)) (s : Renderer F M Cam E) :
    (s.run X ops).toDeviceHandles = s.toDeviceHandles
    ∧ (s.run X ops).toTextures = s.toTextures
    ∧ (s.run X ops).m_IsInitialized = s.m_IsInitialized := by
  induction ops generalizing s with
  | nil => simp [Renderer.run]
  | cons op ops ih =>
    obtain ⟨h1, h2, h3⟩ := step_keeps_members X s op
    obtain ⟨i1, i2, i3⟩ := ih (s.step X op).1
    exact ⟨by rw [Renderer.run, i1, h1], by rw [Renderer.run, i2, h2],
      by rw [Renderer.run, i3, h3]⟩

/-- One host call keeps the two world matrices equal. -/
theorem step_keeps_worlds_equal {F M Cam E T : Type} [Mul F] [OfScientific F] [Mul M]
    (X : Collaborators F M Cam E T) (s : Renderer F M Cam E) (op : Op T)
    (h : s.m_pVehicleMesh.m_WorldMatrix = s.m_pFireMesh.m_WorldMatrix) :
    (s.step X op).1.m_pVehicleMesh.m_WorldMatrix
      = (s.step X op).1.m_pFireMesh.m_WorldMatrix := by
  cases op with
  | update pTimer => simp [Renderer.step, Renderer.Update, Mesh.RotateMesh, h]
  | switchTechnique =>
    simpa [Renderer.step, Renderer.SwitchTechnique, Mesh.SwitchCurrentTechnique] using h
  | render =>
    by_cases hi : s.m_IsInitialized = true
    · simpa [Renderer.step, Renderer.Render, hi] using h
    · simpa [Renderer.step, Renderer.Render, hi] using h

/-- A sequence of host calls keeps the two world matrices equal. -/
theorem run_keeps_worlds_equal {F M Cam E T : Type} [Mul F] [OfScientific F] [Mul M]
    (X : Collaborators F M Cam E T) (ops : List (Op T)) (s : Renderer F M Cam E)
    (h : s.m_pVehicleMesh.m_WorldMatrix = s.m_pFireMesh.m_WorldMatrix) :
    (s.run X ops).m_pVehicleMesh.m_WorldMatrix = (s.run X ops).m_pFireMesh.m_WorldMatrix := by
  induction ops generalizing s with
  | nil => simpa [Renderer.run] using h
  | cons op ops ih =>
    rw [Renderer.run]
    exact ih _ (step_keeps_worlds_equal X s op h)

/-- The constructor gives both meshes the same world matrix. -/
theorem ctor_worlds_equal {F M Cam E T : Type}
    [Add F] [Neg F] [Div F] [IntCast F] [OfScientific F] [Mul M]
    (X : Collaborators F M Cam E T) (api : DeviceApi) (pWindow : Window)
    (uninit : DeviceHandles) :
    (Renderer.ctor X api pWindow uninit).1.m_pVehicleMesh.m_WorldMatrix
      = (Renderer.ctor X api pWindow uninit).1.m_pFireMesh.m_WorldMatrix := by
  simp only [Renderer.ctor, InitMesh, Mesh.SetWorldMatrix]

/-- C10: in every state reached from a constructed renderer by a finite
sequence of `Update`, `SwitchTechnique` and `Render` calls the vehicle mesh and
the fire mesh have the same world matrix; hence the vehicle's world times view
times projection equals the fire's world times view times projection, and
every matrix `Render` hands to a mesh in that state equals the latter. -/
theorem reachable_worlds_equal {F M Cam E T : Type}
    [Add F] [Neg F] [Div F] [IntCast F] [Mul F] [OfScientific F] [Mul M]
    (X : Collaborators F M Cam E T) (api : DeviceApi) (pWindow : Window)
    (uninit : DeviceHandles) (ops : List (Op T)) :
    ((Renderer.ctor X api pWindow uninit).1.run X ops).m_pVehicleMesh.GetWorldMatrix
      = ((Renderer.ctor X api pWindow uninit).1.run X ops).m_pFireMesh.GetWorldMatrix
    ∧ ((Renderer.ctor X api pWindow uninit).1.run X ops).m_pVehicleMesh.GetWorldMatrix
          * X.GetViewMatrix (X.CalculateViewMatrix
              ((Renderer.ctor X api pWindow uninit).1.run X ops).m_pCamera)
          * X.GetProjectionMatrix (X.CalculateViewMatrix
              ((Renderer.ctor X api pWindow uninit).1.run X ops).m_pCamera)
        = ((Renderer.ctor X api pWindow uninit).1.run X ops).m_pFireMesh.GetWorldMatrix
          * X.GetViewMatrix (X.CalculateViewMatrix
              ((Renderer.ctor X api pWindow uninit).1.run X ops).m_pCamera)
          * X.GetProjectionMatrix (X.CalculateViewMatrix
              ((Renderer.ctor X api pWindow uninit).1.run X ops).m_pCamera)
    ∧ ∀ c ∈ (((Renderer.ctor X api pWindow uninit).1.run X ops).Render X).2,
        ∀ mesh wvp, c.wvpFor mesh = some wvp →
          wvp = ((Renderer.ctor X api pWindow uninit).1.run X ops).m_pFireMesh.GetWorldMatrix
            * X.GetViewMatrix (X.CalculateViewMatrix
                ((Renderer.ctor X api pWindow uninit).1.run X ops).m_pCamera)
            * X.GetProjectionMatrix (X.CalculateViewMatrix
                ((Renderer.ctor X api pWindow uninit).1.run X ops).m_pCamera) := by
  have hw := run_keeps_worlds_equal X ops (Renderer.ctor X api pWindow uninit).1
    (ctor_worlds_equal X api pWindow uninit)
  generalize (Renderer.ctor X api pWindow uninit).1.run X ops = s at hw ⊢
  refine ⟨hw, ?_, ?_⟩
  · simp only [Mesh.GetWorldMatrix, hw]
  · intro c hc mesh wvp hwvp
    by_cases hi : s.m_IsInitialized = true
    · simp only [Renderer.Render, hi, Bool.not_true, Bool.false_eq_true, if_false,
        List.mem_cons, List.mem_singleton, List.not_mem_nil, or_false] at hc
      rcases hc with rfl | rfl | rfl | rfl | rfl | rfl <;>
        simp [Call.wvpFor, Mesh.GetWorldMatrix] at hwvp
      · rw [← hwvp.2, hw]; rfl
      · rw [← hwvp.2, hw]; rfl
    · simp [Renderer.Render, hi] at hc

/-- The first six creation steps stop `InitializeDirectX`: when the earlier
steps succeed and one of them fails, its code is returned, the steps run are
the ones up to it, nothing is bound, and the constructor leaves the flag
false. -/
theorem InitializeDirectX_checked_steps_stop {F M Cam E T : Type}
    [Add F] [Neg F] [Div F] [IntCast F] [OfScientific F] [Mul M]
    (X : Collaborators F M Cam E T) (api : DeviceApi) (pWindow : Window)
    (uninit : DeviceHandles) (k : InitStep) (hk : k ≠ InitStep.createRenderTargetView)
    (hprev : ∀ j : InitStep, j.index < k.index → FAILED (api.hrOf j) = false)
    (hfail : FAILED (api.hrOf k) = true) :
    (InitializeDirectX api pWindow.handle pWindow.width pWindow.height uninit :
        HRESULT × DeviceHandles × List (Call F M T)).1 = api.hrOf k
    ∧ stepsRun (InitializeDirectX api pWindow.handle pWindow.width pWindow.height uninit :
        HRESULT × DeviceHandles × List (Call F M T)).2.2 = InitStep.all.take (k.index + 1)
    ∧ (InitializeDirectX api pWindow.handle pWindow.width pWindow.height uninit :
        HRESULT × DeviceHandles × List (Call F M T)).2.2.any Call.isBindOrViewport = false
    ∧ (Renderer.ctor X api pWindow uninit).1.m_IsInitialized = false := by
  have hne : api.hrOf k ≠ S_OK := by
    intro h0
    rw [h0] at hfail
    simp [FAILED, S_OK] at hfail
  have h0 := hprev InitStep.createDevice
  have h1 := hprev InitStep.createFactory
  have h2 := hprev InitStep.createSwapChain
  have h3 := hprev InitStep.createTexture2D
  have h4 := hprev InitStep.createDepthStencilView
  have h5 := hprev InitStep.getBuffer
  cases k <;>
    simp only [InitStep.index, DeviceApi.hrOf, Nat.lt_irrefl, Nat.not_lt_zero,
      Nat.zero_lt_succ, Nat.zero_lt_one, Nat.one_lt_ofNat, Nat.lt_add_one, forall_const,
      Nat.reduceLT, false_implies, ne_eq, not_true_eq_false, reduceCtorEq,
      not_false_eq_true] at h0 h1 h2 h3 h4 h5 hfail hne hk ⊢ <;>
    simp [InitializeDirectX, Renderer.ctor, stepsRun, Call.step, Call.isBindOrViewport,
      InitStep.all, *]

/-- C3 at its failing input: every step succeeds except
`CreateRenderTargetView`, which fails with `E_FAIL`.  `InitializeDirectX` still
returns `S_OK`, goes on to bind the output targets and set the viewport, and
the constructor sets `m_IsInitialized`. -/
theorem InitializeDirectX_view_failure_unchecked :
    FAILED Sample.apiViewFails.createRenderTargetView.hr = true
    ∧ Sample.apiViewFails.createRenderTargetView.hr ≠ S_OK
    ∧ (InitializeDirectX Sample.apiViewFails 9 640 480 Sample.uninit :
        HRESULT × DeviceHandles × List (Call ℚ Sample.Mat ℚ)).1 = S_OK
    ∧ (InitializeDirectX Sample.apiViewFails 9 640 480 Sample.uninit :
        HRESULT × DeviceHandles × List (Call ℚ Sample.Mat ℚ)).2.2.map Call.isBindOrViewport
        = [false, false, false, false, false, false, false, true, true, false]
    ∧ (Renderer.ctor Sample.X Sample.apiViewFails Sample.window
        Sample.uninit).1.m_IsInitialized = true := by
  refine ⟨by decide, by decide, ?_, ?_, ?_⟩
  · simp [InitializeDirectX, Sample.apiViewFails, Sample.apiOk, FAILED, S_OK]
  · simp [InitializeDirectX, Sample.apiViewFails, Sample.apiOk, FAILED, S_OK,
      Call.isBindOrViewport]
  · simp [Renderer.ctor, InitializeDirectX, Sample.apiViewFails, Sample.apiOk, Sample.window,
      FAILED, S_OK]

/-- The `delete` statements release no device resource. -/
theorem releaseOrder_deleteOwnedObjects {F M Cam E T : Type} (s : Renderer F M Cam E) :
    releaseOrder (s.deleteOwnedObjects : List (Call F M T)) = [] := by
  simp only [releaseOrder, Renderer.deleteOwnedObjects, deleteOwned, List.filterMap_append]
  split_ifs <;> simp [Call.releases]

/-- After a set-up in which every step succeeded, the device pointers of the
renderer are the ones the platform stored. -/
theorem InitializeDirectX_all_succeeded {F M T : Type} [IntCast F] [OfScientific F]
    (api : DeviceApi) (w : Handle) (width height : Int) (uninit : DeviceHandles)
    (hok : api.allSucceeded = true) :
    (InitializeDirectX api w width height uninit :
        HRESULT × DeviceHandles × List (Call F M T)).2.1 =
      { m_pDevice := api.createDevice.ptr, m_pDeviceContext := api.createDeviceContext,
        m_pSwapChain := api.createSwapChain.ptr,
        m_pDepthStencilBuffer := api.createTexture2D.ptr,
        m_pDepthStencilView := api.createDepthStencilView.ptr,
        m_pRenderTargetBuffer := api.getBuffer.ptr,
        m_pRenderTargetView := api.createRenderTargetView.ptr }
    ∧ creationOrder (InitializeDirectX api w width height uninit :
        HRESULT × DeviceHandles × List (Call F M T)).2.2 =
      [ Resource.device, Resource.deviceContext, Resource.dxgiFactory, Resource.swapChain,
        Resource.depthStencilBuffer, Resource.depthStencilView, Resource.renderTargetBuffer,
        Resource.renderTargetView ] := by
  simp only [DeviceApi.allSucceeded, InitStep.all, List.all_cons, List.all_nil,
    DeviceApi.hrOf, Bool.and_true, Bool.and_eq_true, Bool.not_eq_true'] at hok
  obtain ⟨a0, a1, a2, a3, a4, a5, _⟩ := hok
  simp [InitializeDirectX, creationOrder, Call.creates, a0, a1, a2, a3, a4, a5]

/-- C6: when every creation step of `InitializeDirectX` succeeded (and stored
non-null pointers), the destructor of the renderer, in any state the frame loop
has brought it to, first clears, flushes and releases the device context, then
deletes the owned objects, then releases render-target view, render-target
buffer, depth-stencil view, depth-stencil buffer, swap chain and device.  That
is the reverse of the order in which `InitializeDirectX` created these six,
each resource is released once, and the run ends without a fault. -/
theorem dtor_reverse_creation_order {F M Cam E T : Type}
    [Add F] [Neg F] [Div F] [IntCast F] [Mul F] [OfScientific F] [Mul M]
    (X : Collaborators F M Cam E T) (api : DeviceApi) (pWindow : Window)
    (uninit : DeviceHandles) (ops : List (Op T))
    (hok : api.allSucceeded = true) (hptr : api.pointersNonNull = true) :
    (((Renderer.ctor X api pWindow uninit).1.run X ops).dtor :
        List (Call F M T) × Option Fault) =
      ( [ Call.clearState api.createDeviceContext, Call.flush api.createDeviceContext,
          Call.release Resource.deviceContext api.createDeviceContext ]
        ++ ((Renderer.ctor X api pWindow uninit).1.run X ops).deleteOwnedObjects
        ++ [ Call.release Resource.renderTargetView api.createRenderTargetView.ptr,
             Call.release Resource.renderTargetBuffer api.getBuffer.ptr,
             Call.release Resource.depthStencilView api.createDepthStencilView.ptr,
             Call.release Resource.depthStencilBuffer api.createTexture2D.ptr,
             Call.release Resource.swapChain api.createSwapChain.ptr,
             Call.release Resource.device api.createDevice.ptr ],
        none )
    ∧ releaseOrder (((Renderer.ctor X api pWindow uninit).1.run X ops).dtor :
        List (Call F M T) × Option Fault).1 =
      Resource.deviceContext ::
        ((creationOrder (InitializeDirectX api pWindow.handle pWindow.width pWindow.height
            uninit : HRESULT × DeviceHandles × List (Call F M T)).2.2).filter
          (fun r => decide (r ≠ Resource.deviceContext ∧ r ≠ Resource.dxgiFactory))).reverse
    ∧ releaseOrder (((Renderer.ctor X api pWindow uninit).1.run X ops).dtor :
        List (Call F M T) × Option Fault).1 =
      [ Resource.deviceContext, Resource.renderTargetView, Resource.renderTargetBuffer,
        Resource.depthStencilView, Resource.depthStencilBuffer, Resource.swapChain,
        Resource.device ]
    ∧ (releaseOrder (((Renderer.ctor X api pWindow uninit).1.run X ops).dtor :
        List (Call F M T) × Option Fault).1).Nodup := by
  obtain ⟨hd, hc⟩ := InitializeDirectX_all_succeeded (F := F) (M := M) (T := T) api
    pWindow.handle pWindow.width pWindow.height uninit hok
  have hrun := (run_keeps_members X ops (Renderer.ctor X api pWindow uninit).1).1
  have hctor : (Renderer.ctor X api pWindow uninit).1.toDeviceHandles
      = (InitializeDirectX api pWindow.handle pWindow.width pWindow.height uninit :
          HRESULT × DeviceHandles × List (Call F M T)).2.1 := rfl
  rw [hctor, hd] at hrun
  generalize (Renderer.ctor X api pWindow uninit).1.run X ops = s at hrun ⊢
  simp only [DeviceApi.pointersNonNull, Bool.and_eq_true, decide_eq_true_eq] at hptr
  obtain ⟨⟨⟨⟨⟨⟨p0, p1⟩, p2⟩, p3⟩, p4⟩, p5⟩, p6⟩ := hptr
  have e1 : s.m_pDevice = api.createDevice.ptr := by rw [hrun]
  have e2 : s.m_pDeviceContext = api.createDeviceContext := by rw [hrun]
  have e3 : s.m_pSwapChain = api.createSwapChain.ptr := by rw [hrun]
  have e4 : s.m_pDepthStencilBuffer = api.createTexture2D.ptr := by rw [hrun]
  have e5 : s.m_pDepthStencilView = api.createDepthStencilView.ptr := by rw [hrun]
  have e6 : s.m_pRenderTargetBuffer = api.getBuffer.ptr := by rw [hrun]
  have e7 : s.m_pRenderTargetView = api.createRenderTargetView.ptr := by rw [hrun]
  have hdtor : (s.dtor : List (Call F M T) × Option Fault) =
      ( [ Call.clearState api.createDeviceContext, Call.flush api.createDeviceContext,
          Call.release Resource.deviceContext api.createDeviceContext ]
        ++ s.deleteOwnedObjects
        ++ [ Call.release Resource.renderTargetView api.createRenderTargetView.ptr,
             Call.release Resource.renderTargetBuffer api.getBuffer.ptr,
             Call.release Resource.depthStencilView api.createDepthStencilView.ptr,
             Call.release Resource.depthStencilBuffer api.createTexture2D.ptr,
             Call.release Resource.swapChain api.createSwapChain.ptr,
             Call.release Resource.device api.createDevice.ptr ],
        none ) := by
    simp [Renderer.dtor, releaseEach, e1, e2, e3, e4, e5, e6, e7, p0, p1, p2, p3, p4, p5, p6]
  have hrel : releaseOrder (s.dtor : List (Call F M T) × Option Fault).1 =
      [ Resource.deviceContext, Resource.renderTargetView, Resource.renderTargetBuffer,
        Resource.depthStencilView, Resource.depthStencilBuffer, Resource.swapChain,
        Resource.device ] := by
    have hdel := releaseOrder_deleteOwnedObjects (T := T) s
    rw [hdtor]
    simp only [releaseOrder, List.filterMap_append] at hdel ⊢
    rw [hdel]
    simp [Call.releases]
  refine ⟨hdtor, ?_, hrel, ?_⟩
  · rw [hrel, hc]
    decide
  · rw [hrel]
    decide

/-- Witness for C6: the concrete platform on which every creation succeeds,
and the frame loop run for one update, one technique switch and one render. -/
theorem dtor_reverse_creation_order_witness :
    Sample.apiOk.allSucceeded = true ∧ Sample.apiOk.pointersNonNull = true ∧
      releaseOrder (((Renderer.ctor Sample.X Sample.apiOk Sample.window Sample.uninit).1.run
          Sample.X [Op.update (1 / 60), Op.switchTechnique, Op.render]).dtor :
          List (Call ℚ Sample.Mat ℚ) × Option Fault).1 =
        [ Resource.deviceContext, Resource.renderTargetView, Resource.renderTargetBuffer,
          Resource.depthStencilView, Resource.depthStencilBuffer, Resource.swapChain,
          Resource.device ] :=
  ⟨by decide, by decide,
    (dtor_reverse_creation_order Sample.X Sample.apiOk Sample.window Sample.uninit
      [Op.update (1 / 60), Op.switchTechnique, Op.render] (by decide) (by decide)).2.2.1⟩

end dae

/-! ## Effect loading -/

/-- C5: when the compile fails and leaves no diagnostic buffer, `LoadEffect`
returns the null pointer and writes one line to `wcout`, the fixed text
"EffectLoader: Failed to CreateEffectFromFile! \nPath: " followed by the asset
path; whatever a diagnostic buffer holds, the report of the diagnostic branch
(debug output, release, `wcout`) is a different one. -/
theorem LoadEffect_failure_without_diagnostic (c : Compiled) (assetFile : String)
    (hfail : FAILED c.result = true) (hblob : c.pErrorBlob = none) :
    (Effect.LoadEffect c assetFile).outcome = Except.ok none
    ∧ (Effect.LoadEffect c assetFile).log =
        [ EffectCall.wcout
            ("EffectLoader: Failed to CreateEffectFromFile! \nPath: " ++ assetFile ++ "\n") ]
    ∧ (∃ before after : String, (Effect.LoadEffect c assetFile).log =
        [ EffectCall.wcout (before ++ assetFile ++ after) ])
    ∧ (Effect.LoadEffect c assetFile).blobReleases = 0
    ∧ ∀ (blob : List Char) (c2 : Compiled), FAILED c2.result = true →
        c2.pErrorBlob = some blob →
        (Effect.LoadEffect c2 assetFile).log =
            [ EffectCall.outputDebugStringW (blobText blob), EffectCall.errorBlobRelease,
              EffectCall.wcout (blobText blob ++ "\n") ]
          ∧ (Effect.LoadEffect c2 assetFile).log ≠ (Effect.LoadEffect c assetFile).log := by
  have hlog : (Effect.LoadEffect c assetFile).log =
      [ EffectCall.wcout
          ("EffectLoader: Failed to CreateEffectFromFile! \nPath: " ++ assetFile ++ "\n") ] := by
    simp [Effect.LoadEffect, hfail, hblob]
  refine ⟨?_, hlog, ⟨_, _, hlog⟩, ?_, ?_⟩
  · simp [Effect.LoadEffect, hfail, hblob]
  · rw [Run.blobReleases, hlog]
    simp
  · intro blob c2 hf2 hb2
    have hlog2 : (Effect.LoadEffect c2 assetFile).log =
        [ EffectCall.outputDebugStringW (blobText blob), EffectCall.errorBlobRelease,
          EffectCall.wcout (blobText blob ++ "\n") ] := by
      simp [Effect.LoadEffect, hf2, hb2, releaseErrorBlob]
    refine ⟨hlog2, ?_⟩
    rw [hlog2, hlog]
    simp

/-- Witness for C5: a failed compile without a diagnostic buffer, for the path
of the mesh shader. -/
theorem LoadEffect_failure_without_diagnostic_witness :
    FAILED Sample.failedSilently.result = true ∧ Sample.failedSilently.pErrorBlob = none ∧
      (Effect.LoadEffect Sample.failedSilently "Resources/MeshShader.fx").log =
        [ EffectCall.wcout
            ("EffectLoader: Failed to CreateEffectFromFile! \nPath: "
              ++ "Resources/MeshShader.fx" ++ "\n") ] :=
  ⟨by decide, rfl,
    (LoadEffect_failure_without_diagnostic Sample.failedSilently "Resources/MeshShader.fx"
      (by decide) rfl).2.1⟩

/-- C9 at its failing inputs.  A compile that fails with a diagnostic buffer:
the buffer is released once inside the branch, the pointer is set to null, and
the `Release` after the branch is then called through the null pointer.  A
compile that succeeds without a diagnostic buffer: the `Release` after the
branch is called through the null pointer at once. -/
theorem LoadEffect_release_through_null :
    (Effect.LoadEffect Sample.failedWithDiagnostic "Resources/MeshShader.fx").log =
        [ EffectCall.outputDebugStringW "x", EffectCall.errorBlobRelease,
          EffectCall.wcout "x\n" ]
    ∧ (Effect.LoadEffect Sample.failedWithDiagnostic "Resources/MeshShader.fx").outcome =
        Except.error Fault.nullPointerCall
    ∧ (Effect.LoadEffect Sample.compiledSilently "Resources/MeshShader.fx").log = []
    ∧ (Effect.LoadEffect Sample.compiledSilently "Resources/MeshShader.fx").outcome =
        Except.error Fault.nullPointerCall :=
  ⟨rfl, rfl, rfl, rfl⟩

/-- The two compile outcomes in which `LoadEffect` does not call `Release`
through a null pointer: success with a diagnostic buffer (one release, the
program is returned) and failure without one (no release, null is returned). -/
theorem LoadEffect_release_guarded_cases (c : Compiled) (assetFile : String) :
    (FAILED c.result = false → ∀ blob, c.pErrorBlob = some blob →
      (Effect.LoadEffect c assetFile).log = [EffectCall.errorBlobRelease]
        ∧ (Effect.LoadEffect c assetFile).outcome = Except.ok c.pEffect)
    ∧ (FAILED c.result = true → c.pErrorBlob = none →
      (Effect.LoadEffect c assetFile).blobReleases = 0
        ∧ (Effect.LoadEffect c assetFile).outcome = Except.ok none) := by
  constructor
  · intro hf blob hb
    simp [Effect.LoadEffect, hf, hb, releaseErrorBlob]
  · intro hf hb
    simp [Effect.LoadEffect, hf, hb, Run.blobReleases]

/-- C4, as the code has it: whenever `LoadEffect` hands back a program, the
constructor completes normally.  It stores the technique and the matrix
variable it looked up, and an invalid "DefaultTechnique" and an invalid
"gWorldViewProj" are each answered by one line on `wcout` and nothing more; in
particular with an invalid "gWorldViewProj" the finished `Effect` holds the
invalid variable. -/
theorem Effect_ctor_invalid_variable_only_logged (c : Compiled) (assetFile : String)
    (program : ID3DX11Effect)
    (hload : (Effect.LoadEffect c assetFile).outcome = Except.ok (some program)) :
    (Effect.ctor c assetFile).completed = true
    ∧ (Effect.ctor c assetFile).outcome =
        Except.ok ⟨program, program.GetTechniqueByName "DefaultTechnique",
          (program.GetVariableByName "gWorldViewProj").AsMatrix⟩
    ∧ (Effect.ctor c assetFile).log =
        (Effect.LoadEffect c assetFile).log
          ++ (if !(program.GetTechniqueByName "DefaultTechnique").IsValid then
                [EffectCall.wcout "Technique not valid \n"] else [])
          ++ (if !(program.GetVariableByName "gWorldViewProj").AsMatrix.IsValid then
                [EffectCall.wcout "m_pMatWorldViewProjVariable not valid \n"] else [])
    ∧ ((program.GetVariableByName "gWorldViewProj").AsMatrix.IsValid = false →
        EffectCall.wcout "m_pMatWorldViewProjVariable not valid \n"
          ∈ (Effect.ctor c assetFile).log) := by
  have hout : (Effect.ctor c assetFile).outcome =
      Except.ok ⟨program, program.GetTechniqueByName "DefaultTechnique",
        (program.GetVariableByName "gWorldViewProj").AsMatrix⟩ := by
    simp only [Effect.ctor, hload]
  have hlog : (Effect.ctor c assetFile).log =
      (Effect.LoadEffect c assetFile).log
        ++ (if !(program.GetTechniqueByName "DefaultTechnique").IsValid then
              [EffectCall.wcout "Technique not valid \n"] else [])
        ++ (if !(program.GetVariableByName "gWorldViewProj").AsMatrix.IsValid then
              [EffectCall.wcout "m_pMatWorldViewProjVariable not valid \n"] else []) := by
    simp only [Effect.ctor, hload]
  refine ⟨?_, hout, hlog, ?_⟩
  · simp only [Run.completed, hout]
  · intro hinv
    rw [hlog, hinv]
    simp

/-- Witness for the amended C4: a compile that succeeded with a warning, for a
program in which "gWorldViewProj" does not resolve. -/
theorem Effect_ctor_invalid_variable_only_logged_witness :
    (Effect.LoadEffect Sample.compiledWithWarning "Resources/MeshShader.fx").outcome
        = Except.ok (some Sample.programWithoutMatrix) ∧
      (Effect.ctor Sample.compiledWithWarning "Resources/MeshShader.fx").completed = true :=
  ⟨rfl,
    (Effect_ctor_invalid_variable_only_logged Sample.compiledWithWarning
      "Resources/MeshShader.fx" Sample.programWithoutMatrix rfl).1⟩

/-- Counterexample to C4 as stated: in the compiled program "gWorldViewProj"
does not resolve to a valid matrix variable, and yet the construction of the
`Effect` completes normally, with the invalid variable stored and one line
logged. -/
theorem Effect_ctor_invalid_variable_counterexample :
    (Sample.programWithoutMatrix.GetVariableByName "gWorldViewProj").AsMatrix.IsValid = false
    ∧ (Effect.ctor Sample.compiledWithWarning "Resources/MeshShader.fx").completed = true
    ∧ (Effect.ctor Sample.compiledWithWarning "Resources/MeshShader.fx").log =
        [ EffectCall.errorBlobRelease,
          EffectCall.wcout "m_pMatWorldViewProjVariable not valid \n" ] :=
  ⟨rfl, rfl, by decide⟩

end GP1
